import Mathlib

/-
Verification of the stellar snapshot CLI (src/stellar/command.py) against its
specification. The CLI layer is embedded from the source; the engine object
(the Stellar app, not under src/) is modelled from the spec where noted.
Machine state is abstracted: the registry is a list of snapshot records, the
physical snapshot storage is an association list from storage locations to an
abstract table-content blob, and the live tracked tables are one such blob.
-/

namespace Stellar

/-- Snapshot record, per the spec data model (section 3): snapshot_name,
created_at (abstract clock tick), ready flag (named slaves_ready in the code,
command.py line 98), worker_handle (worker_pid, command.py line 102), and
storage_location derived from the name. -/
structure Snapshot where
  snapshot_name : String
  created_at : Nat
  slaves_ready : Bool
  worker_pid : Option Nat
  storage_location : String
deriving DecidableEq, Repr

/-- Modelled from the spec: storage_location is a pure function of the
snapshot name (spec section 3), following the stellar naming convention
visible in the source (identifiers starting with stellar_, command.py
line 235). -/
def storageLocationOf (name : String) : String := "stellar_" ++ name

/-- Character sequence of the snapshot-storage naming convention marker. -/
def stellarTag : List Char := ['s', 't', 'e', 'l', 'l', 'a', 'r', '_']

/-- Modelled from the spec: whether a physical storage location matches the
snapshot-storage naming convention (spec section 4.4, gc). -/
def isStellarLocation (loc : String) : Bool := stellarTag.isPrefixOf loc.toList

/-- Abstract state shared by the registry, the physical storage and the live
tracked tables. tables is an abstract blob standing for the contents of all
tracked tables; storage maps a storage location to the blob captured there. -/
structure EngineState where
  registry : List Snapshot
  storage : List (String × Nat)
  tables : Nat
  clock : Nat
deriving DecidableEq, Repr

/-- Modelled from the spec: Registry get(name), returning the record named
name or NotFound (spec section 4.1); app.get_snapshot in the source. -/
def get_snapshot (st : EngineState) (name : String) : Option Snapshot :=
  st.registry.find? (fun s => s.snapshot_name == name)

/-- Modelled from the spec: Registry latest(), the record with maximum
created_at, ties broken in favour of the earliest inserted (spec section
4.1); app.get_latest_snapshot in the source. -/
def get_latest_snapshot (st : EngineState) : Option Snapshot :=
  st.registry.foldl
    (fun acc s =>
      match acc with
      | none => some s
      | some b => if b.created_at < s.created_at then some s else some b)
    none

/-- Modelled from the spec: engine create(name) = Registry insert, an atomic
create-if-absent (spec sections 4.1 and 4.4) that on success records the
dispatched worker handle and returns the new record with ready=false; on a
name collision it changes nothing and reports the collision (none).
app.create_snapshot in the source. -/
def create_snapshot (st : EngineState) (name : String) :
    Option Snapshot × EngineState :=
  match get_snapshot st name with
  | some _ => (none, st)
  | none =>
    let snap : Snapshot :=
      { snapshot_name := name
        created_at := st.clock
        slaves_ready := false
        worker_pid := some st.clock
        storage_location := storageLocationOf name }
    (some snap,
     { st with registry := st.registry ++ [snap], clock := st.clock + 1 })

/-- Modelled from the spec: engine remove(snapshot), deleting the physical
storage for its storage_location and then the registry record (spec section
4.4); app.remove_snapshot in the source. -/
def remove_snapshot (st : EngineState) (snap : Snapshot) : EngineState :=
  { st with
    storage := st.storage.filter (fun p => !(p.1 == snap.storage_location))
    registry :=
      st.registry.filter (fun s => !(s.snapshot_name == snap.snapshot_name)) }

/-- Modelled from the spec: Registry rename, atomically rewriting both the
record (name and storage_location) and moving the physical storage entry to
the new location in one step (spec section 4.1); app.rename_snapshot in the
source. -/
def rename_snapshot (st : EngineState) (snap : Snapshot) (new_name : String) :
    EngineState :=
  { st with
    registry := st.registry.map (fun s =>
      if s.snapshot_name == snap.snapshot_name then
        { s with snapshot_name := new_name
                 storage_location := storageLocationOf new_name }
      else s)
    storage := st.storage.map (fun p =>
      if p.1 == snap.storage_location then (storageLocationOf new_name, p.2)
      else p) }

/-- Modelled from the spec: the liveness probe against the recorded worker
handle, false when the handle is absent or the process cannot be found (spec
section 4.4); app.is_copy_process_running in the source. alive gives the
liveness of each process id. -/
def is_copy_process_running (alive : Nat → Bool) (snap : Snapshot) : Bool :=
  match snap.worker_pid with
  | none => false
  | some pid => alive pid

/-- Modelled from the spec: the inline synchronous copy of all tracked tables
using the Copy Strategy, followed by mark_ready (spec section 4.4 step 2b);
app.inline_slave_copy in the source. -/
def inline_slave_copy (st : EngineState) (snap : Snapshot) : EngineState :=
  { st with
    storage :=
      (snap.storage_location, st.tables) ::
        st.storage.filter (fun p => !(p.1 == snap.storage_location))
    registry := st.registry.map (fun s =>
      if s.snapshot_name == snap.snapshot_name then
        { s with slaves_ready := true }
      else s) }

/-- Modelled from the spec: engine restore step 3, copy_backward of the
snapshot storage into every tracked table (spec section 4.4); app.restore in
the source. A missing storage entry leaves the tables unchanged. -/
def app_restore (st : EngineState) (snap : Snapshot) : EngineState :=
  match st.storage.find? (fun p => p.1 == snap.storage_location) with
  | some p => { st with tables := p.2 }
  | none => st

/-- Modelled from the spec: the orphan locations the reconciler computes:
every physical storage location matching the snapshot-storage naming
convention whose location no registry record references (spec section 4.4). -/
def orphanLocations (st : EngineState) : List String :=
  (st.storage.map Prod.fst).filter (fun loc =>
    isStellarLocation loc &&
      !(st.registry.any (fun s => s.storage_location == loc)))

/-- Modelled from the spec: app.delete_orphan_snapshots, deleting every
orphan location and returning the list processed; the returned list is also
the trace of after_delete hook invocations, one per deletion (spec section
4.4; the hook is after_delete in command.py lines 37 to 41). -/
def delete_orphan_snapshots (st : EngineState) : List String × EngineState :=
  (orphanLocations st,
   { st with
     storage :=
       st.storage.filter (fun p => !(decide (p.1 ∈ orphanLocations st))) })

/-- Modelled from the spec: the engine default snapshot name used by the CLI
when no name argument is given (command.py line 49; the constant itself lives
in the engine, which is not under src/). -/
def default_snapshot_name : String := "default"

/-- Outcome of the snapshot command: created, or the exit-1 path reporting
that a snapshot with that name already exists (command.py lines 51 to 57). -/
inductive SnapResult
  | created
  | alreadyExists
deriving DecidableEq, Repr

/-- The snapshot command (command.py lines 44 to 57): resolve the name (a
missing or falsy name argument falls back to default_snapshot_name, line 49),
then check get_snapshot and either report the collision and exit 1, or call
create_snapshot, discarding its result (line 57). -/
def snapshotCmd (nameArg : Option String) (st : EngineState) :
    SnapResult × EngineState :=
  let name :=
    match nameArg with
    | none => default_snapshot_name
    | some n => if n = "" then default_snapshot_name else n
  match get_snapshot st name with
  | some _ => (SnapResult.alreadyExists, st)
  | none => (SnapResult.created, (create_snapshot st name).2)

/-- Outcome of the remove command (command.py lines 119 to 132). -/
inductive RemoveResult
  | removed
  | notFound
deriving DecidableEq, Repr

/-- The remove command (command.py lines 119 to 132): look up the name, exit
1 when absent, otherwise remove_snapshot. -/
def removeCmd (name : String) (st : EngineState) : RemoveResult × EngineState :=
  match get_snapshot st name with
  | none => (RemoveResult.notFound, st)
  | some snap => (RemoveResult.removed, remove_snapshot st snap)

/-- Outcome of the rename command (command.py lines 135 to 153). -/
inductive RenameResult
  | renamed
  | oldNotFound
  | newCollision
deriving DecidableEq, Repr

/-- The rename command (command.py lines 135 to 153): look up old_name (exit
1 when absent), check new_name for a collision (exit 1 when present), then
app.rename_snapshot. -/
def renameCmd (old_name new_name : String) (st : EngineState) :
    RenameResult × EngineState :=
  match get_snapshot st old_name with
  | none => (RenameResult.oldNotFound, st)
  | some snap =>
    match get_snapshot st new_name with
    | some _ => (RenameResult.newCollision, st)
    | none => (RenameResult.renamed, rename_snapshot st snap new_name)

/-- Outcome of the replace command (command.py lines 156 to 169). -/
inductive ReplaceResult
  | replaced
  | notFound
deriving DecidableEq, Repr

/-- The replace command (command.py lines 156 to 169): look up the name (exit
1 when absent), then remove_snapshot followed by create_snapshot under the
same name, the result of create discarded. -/
def replaceCmd (name : String) (st : EngineState) :
    ReplaceResult × EngineState :=
  match get_snapshot st name with
  | none => (ReplaceResult.notFound, st)
  | some snap =>
    (ReplaceResult.replaced, (create_snapshot (remove_snapshot st snap) name).2)

/-- The gc command (command.py lines 34 to 41): app.delete_orphan_snapshots
with the after_delete echo hook; the first component is the list of deleted
locations, which is also the hook-invocation trace, one entry per deletion. -/
def gcCmd (st : EngineState) : List String × EngineState :=
  delete_orphan_snapshots st

/-- Outcome of the restore command (command.py lines 74 to 116): the two
exit-1 failure paths, restoration (inline marks the slow path that performed
the inline copy, line 113), or stillWaiting when the poll loop has not
terminated within the observed number of polls. -/
inductive RestoreResult
  | noSnapshots
  | notFound
  | restored (inline : Bool)
  | stillWaiting
deriving DecidableEq, Repr

/-- The poll loop of command.py lines 105 to 109: re-read the snapshot record
once per sleep(1) tick and leave the loop as soon as the ready flag is
observed true. readyAt k is the flag seen by the re-read at tick k; fuel
bounds how many ticks are observed, and none means the loop was still running
after fuel ticks. The loop condition consults only the ready flag. -/
def waitReady (readyAt : Nat → Bool) : Nat → Nat → Option Nat
  | 0, _ => none
  | fuel + 1, k => if readyAt k then some k else waitReady readyAt fuel (k + 1)

/-- The readiness block and restore of command.py lines 97 to 116, for a
resolved snapshot record: when ready, restore directly; otherwise probe
worker liveness once (line 99, aliveFn 0 is the process-liveness table at
that single probe) and either enter the poll loop, or do the inline copy
before restoring. -/
def restoreFromSnapshot (aliveFn : Nat → Nat → Bool) (readyAt : Nat → Bool)
    (fuel : Nat) (st : EngineState) (snap : Snapshot) :
    RestoreResult × EngineState :=
  if snap.slaves_ready then
    (RestoreResult.restored false, app_restore st snap)
  else if is_copy_process_running (aliveFn 0) snap then
    match waitReady readyAt fuel 1 with
    | some _ => (RestoreResult.restored false, app_restore st snap)
    | none => (RestoreResult.stillWaiting, st)
  else
    (RestoreResult.restored true,
     app_restore (inline_slave_copy st snap) snap)

/-- The restore command (command.py lines 74 to 116): a missing or falsy name
argument resolves via get_latest_snapshot (exit 1 when there are no
snapshots); a given name resolves via get_snapshot (exit 1 when absent);
then the readiness block and restore. -/
def restoreCmd (nameArg : Option String) (aliveFn : Nat → Nat → Bool)
    (readyAt : Nat → Bool) (fuel : Nat) (st : EngineState) :
    RestoreResult × EngineState :=
  let resolved : Option String :=
    match nameArg with
    | none => none
    | some n => if n = "" then none else some n
  match resolved with
  | none =>
    match get_latest_snapshot st with
    | none => (RestoreResult.noSnapshots, st)
    | some snap => restoreFromSnapshot aliveFn readyAt fuel st snap
  | some n =>
    match get_snapshot st n with
    | none => (RestoreResult.notFound, st)
    | some snap => restoreFromSnapshot aliveFn readyAt fuel st snap

/-- Outcome of configuration resolution, per the except clauses of main
(command.py lines 278 to 318): success, MissingConfig, InvalidConfig, or an
ImportError naming the module that failed to import. -/
inductive ConfigOutcome
  | ok
  | missingConfig
  | invalidConfig (msg : String)
  | importFailure (lib : String)
deriving DecidableEq, Repr

/-- Whether an ImportError is one main recognises as a missing database
driver (command.py lines 288 to 317: psycopg2, pymysql, or MySQLdb). -/
def knownDriverError (lib : String) : Bool :=
  lib == "psycopg2" || lib == "pymysql" || lib == "MySQLdb"

/-- The CLI commands main can dispatch to (the click group of command.py),
with the per-command arguments the claims need. -/
inductive Cmd
  | versionC
  | gcC
  | snapshotC (name : Option String)
  | listC
  | restoreC (name : Option String)
  | removeC (name : String)
  | renameC (old_name new_name : String)
  | replaceC (name : String)
deriving DecidableEq, Repr

/-- State effect of dispatching one CLI command once configuration resolution
has succeeded (version and list never mutate state). -/
def runCmdState (c : Cmd) (aliveFn : Nat → Nat → Bool) (readyAt : Nat → Bool)
    (fuel : Nat) (st : EngineState) : EngineState :=
  match c with
  | Cmd.versionC => st
  | Cmd.gcC => (gcCmd st).2
  | Cmd.snapshotC n => (snapshotCmd n st).2
  | Cmd.listC => st
  | Cmd.restoreC n => (restoreCmd n aliveFn readyAt fuel st).2
  | Cmd.removeC n => (removeCmd n st).2
  | Cmd.renameC o n => (renameCmd o n st).2
  | Cmd.replaceC n => (replaceCmd n st).2

/-- Outcome of main: the command completed, main caught a configuration
failure and exited with status 1, or main re-raised an ImportError it did not
recognise (command.py line 318). -/
inductive MainOutcome
  | completed
  | exitOne
  | reraised
deriving DecidableEq, Repr

/-- The main entry point (command.py lines 278 to 318), with configuration
resolution modelled from the spec as happening inside get_app (command.py
lines 17 to 19) before the command body runs: a MissingConfig or
InvalidConfig is caught and exits with status 1; an ImportError for a known
database driver is caught and exits with status 1; any other ImportError is
re-raised. In every failure case the command body never runs, so the state
is returned untouched. -/
def main (cfg : ConfigOutcome) (c : Cmd) (aliveFn : Nat → Nat → Bool)
    (readyAt : Nat → Bool) (fuel : Nat) (st : EngineState) :
    MainOutcome × EngineState :=
  match cfg with
  | ConfigOutcome.ok =>
    (MainOutcome.completed, runCmdState c aliveFn readyAt fuel st)
  | ConfigOutcome.missingConfig => (MainOutcome.exitOne, st)
  | ConfigOutcome.invalidConfig _ => (MainOutcome.exitOne, st)
  | ConfigOutcome.importFailure lib =>
    (if knownDriverError lib then MainOutcome.exitOne else MainOutcome.reraised,
     st)

/-- Program counter of one in-flight snapshot command, used to interleave two
concurrent invocations: about to run the get_snapshot check (command.py line
51), holding the result of that check, or finished. -/
inductive PC
  | start
  | checked (found : Bool)
  | done (r : SnapResult)
deriving DecidableEq, Repr

/-- One atomic step of an in-flight snapshot command against the shared
registry: the get_snapshot check (line 51), then, depending on its outcome,
either the exit-1 collision report (lines 52 to 53) or the create_snapshot
call whose own result the CLI discards (line 57). -/
def stepProc (name : String) (pc : PC) (st : EngineState) : PC × EngineState :=
  match pc with
  | PC.start => (PC.checked (get_snapshot st name).isSome, st)
  | PC.checked true => (PC.done SnapResult.alreadyExists, st)
  | PC.checked false => (PC.done SnapResult.created, (create_snapshot st name).2)
  | PC.done r => (PC.done r, st)

/-- Two snapshot commands racing on the same name against one shared state. -/
structure RaceState where
  p1 : PC
  p2 : PC
  st : EngineState
deriving DecidableEq, Repr

/-- Run one scheduled step: true steps the first invocation, false the
second. -/
def raceStep (name : String) (turn : Bool) (rs : RaceState) : RaceState :=
  if turn then
    let s := stepProc name rs.p1 rs.st
    { rs with p1 := s.1, st := s.2 }
  else
    let s := stepProc name rs.p2 rs.st
    { rs with p2 := s.1, st := s.2 }

/-- Run a whole interleaving schedule of the two racing invocations. -/
def runRace (name : String) (sched : List Bool) (rs : RaceState) : RaceState :=
  match sched with
  | [] => rs
  | turn :: rest => runRace name rest (raceStep name turn rs)

/-- When the ready flag is false at every observed tick, the poll loop is
still running after any number of ticks. -/
lemma waitReady_eq_none (readyAt : Nat → Bool) (h : ∀ k, readyAt k = false) :
    ∀ fuel k, waitReady readyAt fuel k = none := by
  intro fuel
  induction fuel with
  | zero => intro k; rfl
  | succ f ih => intro k; simp [waitReady, h k, ih]

/-- The poll loop leaves at the first tick whose re-read observes ready. -/
lemma waitReady_succ_of_ready (readyAt : Nat → Bool) (f k : Nat)
    (h : readyAt k = true) : waitReady readyAt (f + 1) k = some k := by
  simp [waitReady, h]

/-- Searching an appended list when the front part has no match. -/
lemma find?_append_of_none {α : Type} (p : α → Bool) {l₁ : List α}
    (l₂ : List α) (h : l₁.find? p = none) :
    (l₁ ++ l₂).find? p = l₂.find? p := by
  induction l₁ with
  | nil => rfl
  | cons a t ih =>
    cases hpa : p a with
    | true => rw [List.find?_cons_of_pos t hpa] at h; exact absurd h (by simp)
    | false =>
      rw [List.find?_cons_of_neg t (by simp [hpa])] at h
      rw [List.cons_append, List.find?_cons_of_neg _ (by simp [hpa])]
      exact ih h

/-- Removing every match of a predicate leaves nothing for it to find. -/
lemma find?_filter_not_self {α : Type} (p : α → Bool) (l : List α) :
    (l.filter (fun a => !(p a))).find? p = none := by
  rw [List.find?_eq_none]
  intro x hx
  have := (List.mem_filter.mp hx).2
  simp only [Bool.not_eq_true'] at this
  simp [this]

/-- When the mapped keys of a list are nodup, at most one element maps to any
given key. -/
lemma filter_length_le_one_of_nodup_map {α β : Type} [BEq β] [LawfulBEq β]
    (f : α → β) (l : List α) (h : (l.map f).Nodup) (b : β) :
    (l.filter (fun x => f x == b)).length ≤ 1 := by
  induction l with
  | nil => simp
  | cons a t ih =>
    simp only [List.map_cons, List.nodup_cons] at h
    cases hab : (f a == b) with
    | true =>
      have hfa : f a = b := by simpa using hab
      have ht : t.filter (fun x => f x == b) = [] := by
        rw [List.filter_eq_nil_iff]
        intro x hx hbx
        exact h.1 (List.mem_map.mpr ⟨x, hx, by
          have : f x = b := by simpa using hbx
          rw [this, hfa]⟩)
      simp [List.filter_cons, hab, ht]
    | false =>
      simpa [List.filter_cons, hab] using ih h.2

/-- A successful find? witnesses at least one match among the elements. -/
lemma one_le_filter_length_of_find? {α : Type} (p : α → Bool) (l : List α)
    (a : α) (h : l.find? p = some a) : 1 ≤ (l.filter p).length := by
  have hmem : a ∈ l.filter p :=
    List.mem_filter.mpr ⟨List.mem_of_find?_eq_some h, List.find?_some h⟩
  exact List.length_pos.mpr (List.ne_nil_of_mem hmem)

/-- Fixture: a not-yet-ready snapshot record named v1 with a recorded worker
handle. -/
def snapV1 : Snapshot :=
  { snapshot_name := "v1"
    created_at := 0
    slaves_ready := false
    worker_pid := some 7
    storage_location := "stellar_v1" }

/-- Fixture: the ready variant of snapV1. -/
def snapV1ready : Snapshot := { snapV1 with slaves_ready := true }

/-- Fixture: the empty state. -/
def emptySt : EngineState :=
  { registry := [], storage := [], tables := 5, clock := 0 }

/-- Fixture: a state holding the not-yet-ready snapshot v1 and its storage. -/
def stV1 : EngineState :=
  { registry := [snapV1]
    storage := [("stellar_v1", 3)]
    tables := 5
    clock := 1 }

/-- Fixture: a state holding the ready snapshot v1 and its storage. -/
def stV1ready : EngineState :=
  { registry := [snapV1ready]
    storage := [("stellar_v1", 3)]
    tables := 5
    clock := 1 }

/-- Fixture: stV1ready extended with one orphan storage location and one
storage object outside the naming convention. -/
def stGc : EngineState :=
  { registry := [snapV1ready]
    storage := [("stellar_v1", 3), ("stellar_zzz", 9), ("other", 4)]
    tables := 5
    clock := 1 }

end Stellar

namespace Stellar

/-- C10: when the snapshot command is invoked without a name argument (or
with the falsy empty string), the engine default snapshot name is used in its
place, so creation never fails merely because no name was supplied. -/
theorem snapshot_default_name_used (st : EngineState) :
    snapshotCmd none st = snapshotCmd (some default_snapshot_name) st ∧
    snapshotCmd (some "") st = snapshotCmd (some default_snapshot_name) st ∧
    (get_snapshot st default_snapshot_name = none →
      (snapshotCmd none st).1 = SnapResult.created) := by
  refine ⟨rfl, rfl, ?_⟩
  intro h
  simp [snapshotCmd, h]

/-- Witness for C10 at a concrete state: with an empty registry, the nameless
snapshot command reports creation. -/
theorem snapshot_default_name_used_witness :
    (snapshotCmd none emptySt).1 = SnapResult.created :=
  (snapshot_default_name_used emptySt).2.2 rfl

/-- C8: restore invoked without a name when no snapshots exist hits the
NotFound result of latest() and exits with status 1 leaving the state
untouched; restore invoked with an unknown name hits the NotFound result of
get(name) and likewise exits with status 1 without mutating any tracked
table. -/
theorem restore_missing_snapshot_fails (aliveFn : Nat → Nat → Bool)
    (readyAt : Nat → Bool) (fuel : Nat) (st : EngineState) :
    (st.registry = [] →
      get_latest_snapshot st = none ∧
      restoreCmd none aliveFn readyAt fuel st =
        (RestoreResult.noSnapshots, st)) ∧
    (∀ n, n ≠ "" → get_snapshot st n = none →
      restoreCmd (some n) aliveFn readyAt fuel st =
        (RestoreResult.notFound, st)) := by
  constructor
  · intro h
    have hl : get_latest_snapshot st = none := by
      simp [get_latest_snapshot, h]
    exact ⟨hl, by simp [restoreCmd, hl]⟩
  · intro n hn hg
    simp [restoreCmd, hn, hg]

/-- Witness for C8 at concrete states: both failure paths observed. -/
theorem restore_missing_snapshot_fails_witness :
    restoreCmd none (fun _ _ => true) (fun _ => false) 3 emptySt =
      (RestoreResult.noSnapshots, emptySt) ∧
    restoreCmd (some "nope") (fun _ _ => true) (fun _ => false) 3 stV1 =
      (RestoreResult.notFound, stV1) :=
  ⟨((restore_missing_snapshot_fails (fun _ _ => true) (fun _ => false) 3
      emptySt).1 rfl).2,
   (restore_missing_snapshot_fails (fun _ _ => true) (fun _ => false) 3
      stV1).2 "nope" (by decide) rfl⟩

/-- C9: configuration-resolution failures are fatal before any engine
operation runs: main catches MissingConfig, InvalidConfig and ImportError
for a known database driver, exits with status 1, and the state (hence the
registry) is returned exactly as it was, so no registry mutation was
attempted. -/
theorem config_failure_is_fatal (cfg : ConfigOutcome) (c : Cmd)
    (aliveFn : Nat → Nat → Bool) (readyAt : Nat → Bool) (fuel : Nat)
    (st : EngineState) (hcfg : cfg ≠ ConfigOutcome.ok) :
    (main cfg c aliveFn readyAt fuel st).2 = st ∧
    (cfg = ConfigOutcome.missingConfig →
      (main cfg c aliveFn readyAt fuel st).1 = MainOutcome.exitOne) ∧
    (∀ m, cfg = ConfigOutcome.invalidConfig m →
      (main cfg c aliveFn readyAt fuel st).1 = MainOutcome.exitOne) ∧
    (∀ lib, cfg = ConfigOutcome.importFailure lib →
      knownDriverError lib = true →
      (main cfg c aliveFn readyAt fuel st).1 = MainOutcome.exitOne) := by
  cases cfg with
  | ok => exact absurd rfl hcfg
  | missingConfig => exact ⟨rfl, fun _ => rfl, by simp, by simp⟩
  | invalidConfig m => exact ⟨rfl, by simp, fun _ _ => rfl, by simp⟩
  | importFailure lib =>
    refine ⟨rfl, by simp, by simp, ?_⟩
    intro l hl hk
    injection hl with h
    subst h
    simp [main, hk]

/-- Witness for C9 at a concrete input: a missing configuration exits with
status 1 and leaves the state untouched; so does a missing pymysql driver. -/
theorem config_failure_is_fatal_witness :
    (main ConfigOutcome.missingConfig (Cmd.snapshotC (some "v1"))
      (fun _ _ => true) (fun _ => false) 3 stV1).2 = stV1 ∧
    (main ConfigOutcome.missingConfig (Cmd.snapshotC (some "v1"))
      (fun _ _ => true) (fun _ => false) 3 stV1).1 = MainOutcome.exitOne ∧
    (main (ConfigOutcome.importFailure "pymysql") (Cmd.removeC "v1")
      (fun _ _ => true) (fun _ => false) 3 stV1).1 = MainOutcome.exitOne :=
  ⟨(config_failure_is_fatal ConfigOutcome.missingConfig
      (Cmd.snapshotC (some "v1")) (fun _ _ => true) (fun _ => false) 3 stV1
      (by decide)).1,
   (config_failure_is_fatal ConfigOutcome.missingConfig
      (Cmd.snapshotC (some "v1")) (fun _ _ => true) (fun _ => false) 3 stV1
      (by decide)).2.1 rfl,
   (config_failure_is_fatal (ConfigOutcome.importFailure "pymysql")
      (Cmd.removeC "v1") (fun _ _ => true) (fun _ => false) 3 stV1
      (by decide)).2.2.2 "pymysql" rfl (by decide)⟩

/-- C3: when a live record already exists under a name, the snapshot command
reports the collision (the exit-1 already-exists path), changes nothing, and
afterwards exactly one registry record with that name exists. -/
theorem create_existing_name_collides (st : EngineState) (name : String)
    (snap : Snapshot) (hname : name ≠ "")
    (hget : get_snapshot st name = some snap)
    (hnd : (st.registry.map Snapshot.snapshot_name).Nodup) :
    (snapshotCmd (some name) st).1 = SnapResult.alreadyExists ∧
    (snapshotCmd (some name) st).2 = st ∧
    (((snapshotCmd (some name) st).2.registry.filter
        (fun s => s.snapshot_name == name)).length = 1) := by
  have hcmd : snapshotCmd (some name) st = (SnapResult.alreadyExists, st) := by
    simp [snapshotCmd, hname, hget]
  refine ⟨by rw [hcmd], by rw [hcmd], ?_⟩
  rw [hcmd]
  have hget' : st.registry.find? (fun s => s.snapshot_name == name) =
      some snap := hget
  have h1 := one_le_filter_length_of_find?
    (fun s => s.snapshot_name == name) st.registry snap hget'
  have h2 := filter_length_le_one_of_nodup_map
    Snapshot.snapshot_name st.registry hnd name
  exact le_antisymm h2 h1

/-- Witness for C3 at a concrete state holding v1. -/
theorem create_existing_name_collides_witness :
    (snapshotCmd (some "v1") stV1).1 = SnapResult.alreadyExists ∧
    (snapshotCmd (some "v1") stV1).2 = stV1 ∧
    (((snapshotCmd (some "v1") stV1).2.registry.filter
        (fun s => s.snapshot_name == "v1")).length = 1) :=
  create_existing_name_collides stV1 "v1" snapV1 (by decide) rfl (by decide)

/-- C7: for a fresh name, the snapshot command reports creation, and an
immediate get of that name returns a record whose ready flag is false and
whose storage_location is the deterministic derivation from the name. -/
theorem create_fresh_then_get (st : EngineState) (name : String)
    (hname : name ≠ "") (hfresh : get_snapshot st name = none) :
    (snapshotCmd (some name) st).1 = SnapResult.created ∧
    ∃ snap, get_snapshot (snapshotCmd (some name) st).2 name = some snap ∧
      snap.slaves_ready = false ∧
      snap.storage_location = storageLocationOf name := by
  have hcmd : snapshotCmd (some name) st =
      (SnapResult.created, (create_snapshot st name).2) := by
    simp [snapshotCmd, hname, hfresh]
  refine ⟨by rw [hcmd], ?_⟩
  rw [hcmd]
  have hstate : (create_snapshot st name).2 =
      { st with
        registry := st.registry ++
          [{ snapshot_name := name
             created_at := st.clock
             slaves_ready := false
             worker_pid := some st.clock
             storage_location := storageLocationOf name }]
        clock := st.clock + 1 } := by
    simp [create_snapshot, hfresh]
  refine ⟨{ snapshot_name := name
            created_at := st.clock
            slaves_ready := false
            worker_pid := some st.clock
            storage_location := storageLocationOf name }, ?_, rfl, rfl⟩
  rw [hstate]
  have hfresh' : st.registry.find? (fun s => s.snapshot_name == name) =
      none := hfresh
  simp only [get_snapshot]
  rw [find?_append_of_none _ _ hfresh']
  exact List.find?_cons_of_pos _ (by simp)

/-- Witness for C7: creating v2 in a state holding only v1 and reading it
back. -/
theorem create_fresh_then_get_witness :
    (snapshotCmd (some "v2") stV1).1 = SnapResult.created ∧
    ∃ snap, get_snapshot (snapshotCmd (some "v2") stV1).2 "v2" = some snap ∧
      snap.slaves_ready = false ∧
      snap.storage_location = storageLocationOf "v2" :=
  create_fresh_then_get stV1 "v2" (by decide) rfl

end Stellar

namespace Stellar

/-- C5: the replace command reports success exactly when the remove command
then the snapshot command would, produces the same final state as that
composition, and is not atomic as a whole: at its intermediate state, after
the remove step and before the create step, the name resolves to NotFound,
so a create failure there leaves the name deleted. -/
theorem replace_is_remove_then_create (st : EngineState) (name : String)
    (snap : Snapshot) (hname : name ≠ "")
    (hget : get_snapshot st name = some snap) :
    (replaceCmd name st).1 = ReplaceResult.replaced ∧
    (removeCmd name st).1 = RemoveResult.removed ∧
    (snapshotCmd (some name) ((removeCmd name st).2)).1 = SnapResult.created ∧
    (replaceCmd name st).2 = (snapshotCmd (some name) ((removeCmd name st).2)).2 ∧
    get_snapshot (remove_snapshot st snap) name = none ∧
    (replaceCmd name st).2 = (create_snapshot (remove_snapshot st snap) name).2 := by
  have hget' : st.registry.find? (fun s => s.snapshot_name == name) =
      some snap := hget
  have hsnapname := List.find?_some hget'
  have hmid : get_snapshot (remove_snapshot st snap) name = none := by
    have heq : snap.snapshot_name = name := by simpa using hsnapname
    show (st.registry.filter
        (fun s => !(s.snapshot_name == snap.snapshot_name))).find?
        (fun s => s.snapshot_name == name) = none
    rw [heq]
    exact find?_filter_not_self _ st.registry
  have hrem : removeCmd name st = (RemoveResult.removed, remove_snapshot st snap) := by
    simp [removeCmd, hget]
  have hrepl : replaceCmd name st =
      (ReplaceResult.replaced,
       (create_snapshot (remove_snapshot st snap) name).2) := by
    simp [replaceCmd, hget]
  have hsnapcmd : snapshotCmd (some name) (remove_snapshot st snap) =
      (SnapResult.created,
       (create_snapshot (remove_snapshot st snap) name).2) := by
    simp [snapshotCmd, hname, hmid]
  refine ⟨by rw [hrepl], by rw [hrem], ?_, ?_, hmid, by rw [hrepl]⟩
  · rw [hrem]; rw [hsnapcmd]
  · rw [hrem, hrepl, hsnapcmd]

/-- Witness for C5 on the concrete state holding the ready snapshot v1. -/
theorem replace_is_remove_then_create_witness :
    (replaceCmd "v1" stV1ready).1 = ReplaceResult.replaced ∧
    (removeCmd "v1" stV1ready).1 = RemoveResult.removed ∧
    (snapshotCmd (some "v1") ((removeCmd "v1" stV1ready).2)).1 =
      SnapResult.created ∧
    (replaceCmd "v1" stV1ready).2 =
      (snapshotCmd (some "v1") ((removeCmd "v1" stV1ready).2)).2 ∧
    get_snapshot (remove_snapshot stV1ready snapV1ready) "v1" = none ∧
    (replaceCmd "v1" stV1ready).2 =
      (create_snapshot (remove_snapshot stV1ready snapV1ready) "v1").2 :=
  replace_is_remove_then_create stV1ready "v1" snapV1ready (by decide) rfl

/-- C6: gc deletes exactly the orphans: a storage_location referenced by any
live registry record is never in the deleted list; every stored location
matching the naming convention that no record references is in the deleted
list; the deleted list (which is also the after_delete hook trace) mentions
each deleted location exactly once; and every deleted location is gone from
the storage afterwards. -/
theorem gc_deletes_exactly_orphans (st : EngineState)
    (hnd : (st.storage.map Prod.fst).Nodup) :
    (∀ s ∈ st.registry, s.storage_location ∉ (gcCmd st).1) ∧
    (∀ loc ∈ st.storage.map Prod.fst, isStellarLocation loc = true →
      (∀ s ∈ st.registry, s.storage_location ≠ loc) → loc ∈ (gcCmd st).1) ∧
    (∀ loc ∈ (gcCmd st).1, (gcCmd st).1.count loc = 1) ∧
    (∀ loc ∈ (gcCmd st).1, loc ∉ (gcCmd st).2.storage.map Prod.fst) := by
  have hgc1 : (gcCmd st).1 = orphanLocations st := rfl
  refine ⟨?_, ?_, ?_, ?_⟩
  · intro s hs hmem
    rw [hgc1] at hmem
    have hcond := (List.mem_filter.mp hmem).2
    have hany : st.registry.any
        (fun t => t.storage_location == s.storage_location) = true :=
      List.any_eq_true.mpr ⟨s, hs, by simp⟩
    rw [Bool.and_eq_true] at hcond
    rw [hany] at hcond
    simp at hcond
  · intro loc hmem hstellar hnoref
    rw [hgc1]
    refine List.mem_filter.mpr ⟨hmem, ?_⟩
    have hany : st.registry.any (fun t => t.storage_location == loc) = false := by
      rw [← Bool.not_eq_true, List.any_eq_true]
      rintro ⟨s, hs, hsl⟩
      exact hnoref s hs (by simpa using hsl)
    simp [hstellar, hany]
  · intro loc hmem
    rw [hgc1] at hmem ⊢
    exact List.count_eq_one_of_mem (hnd.filter _) hmem
  · intro loc hmem hmem2
    rw [hgc1] at hmem
    obtain ⟨p, hp, hfst⟩ := List.mem_map.mp hmem2
    have hfil := (List.mem_filter.mp hp).2
    rw [hfst] at hfil
    simp only [hgc1, Bool.not_eq_true', decide_eq_false_iff_not] at hfil
    exact hfil hmem

/-- Witness for C6 on a state with one referenced location, one orphan, and
one storage object outside the naming convention. -/
theorem gc_deletes_exactly_orphans_witness :
    "stellar_v1" ∉ (gcCmd stGc).1 ∧
    "stellar_zzz" ∈ (gcCmd stGc).1 ∧
    (gcCmd stGc).1.count "stellar_zzz" = 1 ∧
    "stellar_zzz" ∉ (gcCmd stGc).2.storage.map Prod.fst :=
  ⟨(gc_deletes_exactly_orphans stGc (by decide)).1 snapV1ready (by decide),
   (gc_deletes_exactly_orphans stGc (by decide)).2.1 "stellar_zzz" (by decide)
     (by decide) (by decide),
   (gc_deletes_exactly_orphans stGc (by decide)).2.2.1 "stellar_zzz"
     ((gc_deletes_exactly_orphans stGc (by decide)).2.1 "stellar_zzz"
       (by decide) (by decide) (by decide)),
   (gc_deletes_exactly_orphans stGc (by decide)).2.2.2 "stellar_zzz"
     ((gc_deletes_exactly_orphans stGc (by decide)).2.1 "stellar_zzz"
       (by decide) (by decide) (by decide))⟩

end Stellar

namespace Stellar

/-- The storage-layer create-if-absent never produces a second record under
a name that already has one: the per-name record count stays at most one. -/
lemma create_snapshot_count_le_one (st : EngineState) (name : String)
    (h : (st.registry.filter
        (fun s => s.snapshot_name == name)).length ≤ 1) :
    (((create_snapshot st name).2).registry.filter
        (fun s => s.snapshot_name == name)).length ≤ 1 := by
  unfold create_snapshot
  cases hg : get_snapshot st name with
  | some s => simpa using h
  | none =>
    have hg' : st.registry.find? (fun s => s.snapshot_name == name) =
        none := hg
    have hfil : st.registry.filter (fun s => s.snapshot_name == name) = [] := by
      rw [List.filter_eq_nil_iff]
      exact List.find?_eq_none.mp hg'
    simp [List.filter_append, hfil, List.filter_cons]

/-- One step of an in-flight snapshot command preserves the per-name record
count bound. -/
lemma stepProc_count_le_one (name : String) (pc : PC) (st : EngineState)
    (h : (st.registry.filter
        (fun s => s.snapshot_name == name)).length ≤ 1) :
    (((stepProc name pc st).2).registry.filter
        (fun s => s.snapshot_name == name)).length ≤ 1 := by
  cases pc with
  | start => exact h
  | checked found =>
    cases found with
    | true => exact h
    | false => exact create_snapshot_count_le_one st name h
  | done r => exact h

/-- C2 counterexample: the CLI performs the collision check and the write as
two separate steps (command.py line 51 then line 57), so in the concrete
interleaving check/check/create/create of two snapshot commands racing on the
name v1 from an empty registry, both invocations finish reporting success
(neither reports the collision), even though only one registry record named
v1 was created; this contradicts the claim that the check and write are one
atomic step so that two concurrent creators cannot both succeed. -/
theorem snapshot_race_both_report_success :
    ((runRace "v1" [true, false, true, false]
        ⟨PC.start, PC.start, emptySt⟩).p1 = PC.done SnapResult.created) ∧
    ((runRace "v1" [true, false, true, false]
        ⟨PC.start, PC.start, emptySt⟩).p2 = PC.done SnapResult.created) ∧
    (((runRace "v1" [true, false, true, false]
        ⟨PC.start, PC.start, emptySt⟩).st.registry.filter
        (fun s => s.snapshot_name == "v1")).length = 1) := by
  decide

/-- C2 as amended: the CLI check (get_snapshot) and write (create_snapshot)
are two separate atomic steps with an interleaving window between them, and
the racing pair can both report success; what does hold is the storage-layer
guarantee: under every interleaving of the two invocations, the atomic
create-if-absent insert keeps at most one registry record under the raced
name. -/
theorem registry_create_if_absent_unique (name : String) (sched : List Bool)
    (rs : RaceState)
    (h : (rs.st.registry.filter
        (fun s => s.snapshot_name == name)).length ≤ 1) :
    (((runRace name sched rs).st.registry.filter
        (fun s => s.snapshot_name == name)).length ≤ 1) := by
  induction sched generalizing rs with
  | nil => exact h
  | cons turn rest ih =>
    show (((runRace name rest (raceStep name turn rs)).st.registry.filter
        (fun s => s.snapshot_name == name)).length ≤ 1)
    apply ih
    cases turn with
    | true => exact stepProc_count_le_one name rs.p1 rs.st h
    | false => exact stepProc_count_le_one name rs.p2 rs.st h

/-- Witness for the amended C2 on the concrete racing interleaving. -/
theorem registry_create_if_absent_unique_witness :
    (((runRace "v1" [true, false, true, false]
        ⟨PC.start, PC.start, emptySt⟩).st.registry.filter
        (fun s => s.snapshot_name == "v1")).length ≤ 1) :=
  registry_create_if_absent_unique "v1" [true, false, true, false]
    ⟨PC.start, PC.start, emptySt⟩ (by decide)

end Stellar

namespace Stellar

/-- After renaming every record named old to new, no record named old can be
found. -/
lemma rename_registry_find_old (l : List Snapshot) (old_name new_name : String)
    (hne : old_name ≠ new_name) :
    (l.map (fun s => if s.snapshot_name == old_name then
        { s with snapshot_name := new_name
                 storage_location := storageLocationOf new_name }
      else s)).find? (fun s => s.snapshot_name == old_name) = none := by
  rw [List.find?_eq_none]
  intro x hx
  obtain ⟨s, hs, hxs⟩ := List.mem_map.mp hx
  subst hxs
  by_cases hso : (s.snapshot_name == old_name) = true
  · rw [if_pos hso]
    simp only [beq_iff_eq]
    exact fun h => hne h.symm
  · rw [if_neg hso]
    exact hso

/-- After renaming, the record found under the new name is the renamed first
record that carried the old name, provided no record carried the new name
before. -/
lemma rename_registry_find_new (l : List Snapshot) (old_name new_name : String)
    (snap : Snapshot)
    (hold : l.find? (fun s => s.snapshot_name == old_name) = some snap)
    (hnew : l.find? (fun s => s.snapshot_name == new_name) = none) :
    (l.map (fun s => if s.snapshot_name == old_name then
        { s with snapshot_name := new_name
                 storage_location := storageLocationOf new_name }
      else s)).find? (fun s => s.snapshot_name == new_name) =
      some { snap with snapshot_name := new_name
                       storage_location := storageLocationOf new_name } := by
  induction l with
  | nil => simp at hold
  | cons a t ih =>
    by_cases ha : (a.snapshot_name == old_name) = true
    · rw [List.find?_cons_of_pos t ha] at hold
      injection hold with h1
      subst h1
      simp only [List.map_cons, if_pos ha]
      exact List.find?_cons_of_pos _ (by simp)
    · have hallnew := List.find?_eq_none.mp hnew
      have hanew : ¬(a.snapshot_name == new_name) = true :=
        hallnew a (List.mem_cons_self a t)
      have htnew : t.find? (fun s => s.snapshot_name == new_name) = none :=
        List.find?_eq_none.mpr (fun x hx => hallnew x (List.mem_cons_of_mem _ hx))
      rw [List.find?_cons_of_neg t ha] at hold
      simp only [List.map_cons, if_neg ha]
      rw [List.find?_cons_of_neg
          (p := fun s : Snapshot => s.snapshot_name == new_name) _ hanew]
      exact ih hold htnew

/-- Moving the storage entry from the old location to the new one preserves
the stored data: looking up the new location afterwards yields what the old
location held before, provided nothing was stored under the new location. -/
lemma relocate_find_data (l : List (String × Nat)) (old_loc new_loc : String)
    (hno : ∀ p ∈ l, (p.1 == new_loc) = false) :
    ((l.map (fun p => if p.1 == old_loc then (new_loc, p.2) else p)).find?
        (fun p => p.1 == new_loc)).map Prod.snd =
      (l.find? (fun p => p.1 == old_loc)).map Prod.snd := by
  induction l with
  | nil => rfl
  | cons a t ih =>
    by_cases ha : (a.1 == old_loc) = true
    · simp only [List.map_cons, if_pos ha]
      rw [List.find?_cons_of_pos
          (p := fun q : String × Nat => q.1 == new_loc) _
          (show ((new_loc, a.2).1 == new_loc) = true by simp),
          List.find?_cons_of_pos
          (p := fun q : String × Nat => q.1 == old_loc) t ha]
      rfl
    · have hane : ¬(a.1 == new_loc) = true := by
        simp [hno a (List.mem_cons_self a t)]
      simp only [List.map_cons, if_neg ha]
      rw [List.find?_cons_of_neg
          (p := fun q : String × Nat => q.1 == new_loc) _ hane,
          List.find?_cons_of_neg
          (p := fun q : String × Nat => q.1 == old_loc) t ha]
      exact ih (fun p hp => hno p (List.mem_cons_of_mem _ hp))

/-- C4: the rename command returns NotFound when old is absent and
NameCollision when new is present, leaving the state exactly as before on
both failure paths; on success the old name resolves to NotFound, the new
name yields the renamed record with the same created_at, and the data stored
for the snapshot is found under the new storage location exactly as it was
under the old one. -/
theorem rename_semantics (st : EngineState) (old_name new_name : String) :
    (get_snapshot st old_name = none →
      renameCmd old_name new_name st = (RenameResult.oldNotFound, st)) ∧
    (∀ s t, get_snapshot st old_name = some s →
      get_snapshot st new_name = some t →
      renameCmd old_name new_name st = (RenameResult.newCollision, st)) ∧
    (∀ snap, get_snapshot st old_name = some snap →
      get_snapshot st new_name = none →
      (∀ p ∈ st.storage, (p.1 == storageLocationOf new_name) = false) →
      (renameCmd old_name new_name st).1 = RenameResult.renamed ∧
      get_snapshot (renameCmd old_name new_name st).2 old_name = none ∧
      get_snapshot (renameCmd old_name new_name st).2 new_name =
        some { snap with snapshot_name := new_name
                         storage_location := storageLocationOf new_name } ∧
      (((renameCmd old_name new_name st).2.storage.find?
          (fun p => p.1 == storageLocationOf new_name)).map Prod.snd) =
        ((st.storage.find? (fun p => p.1 == snap.storage_location)).map
          Prod.snd)) := by
  refine ⟨?_, ?_, ?_⟩
  · intro h
    simp [renameCmd, h]
  · intro s t hs ht
    simp [renameCmd, hs, ht]
  · intro snap hsnap hnew hno
    have hsnap' : st.registry.find? (fun s => s.snapshot_name == old_name) =
        some snap := hsnap
    have hnew' : st.registry.find? (fun s => s.snapshot_name == new_name) =
        none := hnew
    have heqname : snap.snapshot_name = old_name := by
      simpa using List.find?_some hsnap'
    have hne : old_name ≠ new_name := by
      intro h
      rw [h] at hsnap
      rw [hsnap] at hnew
      exact Option.noConfusion hnew
    have hcmd : renameCmd old_name new_name st =
        (RenameResult.renamed, rename_snapshot st snap new_name) := by
      simp [renameCmd, hsnap, hnew]
    rw [hcmd]
    refine ⟨rfl, ?_, ?_, ?_⟩
    · show ((st.registry.map (fun s =>
          if s.snapshot_name == snap.snapshot_name then
            { s with snapshot_name := new_name
                     storage_location := storageLocationOf new_name }
          else s)).find? (fun s => s.snapshot_name == old_name)) = none
      rw [heqname]
      exact rename_registry_find_old st.registry old_name new_name hne
    · show ((st.registry.map (fun s =>
          if s.snapshot_name == snap.snapshot_name then
            { s with snapshot_name := new_name
                     storage_location := storageLocationOf new_name }
          else s)).find? (fun s => s.snapshot_name == new_name)) = _
      rw [heqname]
      exact rename_registry_find_new st.registry old_name new_name snap
        hsnap' hnew'
    · show (((st.storage.map (fun p =>
          if p.1 == snap.storage_location
          then (storageLocationOf new_name, p.2) else p)).find?
          (fun p => p.1 == storageLocationOf new_name)).map Prod.snd) = _
      exact relocate_find_data st.storage snap.storage_location
        (storageLocationOf new_name) hno

/-- Witness for C4: renaming v1 to v2 in the concrete ready state. -/
theorem rename_semantics_witness :
    (renameCmd "v1" "v2" stV1ready).1 = RenameResult.renamed ∧
    get_snapshot (renameCmd "v1" "v2" stV1ready).2 "v1" = none ∧
    get_snapshot (renameCmd "v1" "v2" stV1ready).2 "v2" =
      some { snapV1ready with snapshot_name := "v2"
                              storage_location := storageLocationOf "v2" } ∧
    (((renameCmd "v1" "v2" stV1ready).2.storage.find?
        (fun p => p.1 == storageLocationOf "v2")).map Prod.snd) =
      ((stV1ready.storage.find?
          (fun p => p.1 == snapV1ready.storage_location)).map Prod.snd) :=
  (rename_semantics stV1ready "v1" "v2").2.2 snapV1ready rfl rfl (by decide)

end Stellar

namespace Stellar

/-- C1 counterexample: the poll loop of command.py lines 105 to 109 tests
only the ready flag and never re-probes worker liveness, so when the worker
dies right after the single initial liveness check (alive only at probe 0)
and the snapshot never becomes ready, the restore command is still blocked
after 5 polls instead of falling through to the inline copy; hence the
claimed protocol, which requires the wait to end and an inline copy to run
once the worker is no longer alive, is false. -/
theorem restore_poll_ignores_worker_death :
    (restoreCmd (some "v1") (fun k _ => k == 0) (fun _ => false) 5 stV1).1 =
      RestoreResult.stillWaiting ∧
    ¬ (∀ (aliveFn : Nat → Nat → Bool) (readyAt : Nat → Bool) (fuel : Nat)
        (st : EngineState) (snap : Snapshot),
        get_snapshot st "v1" = some snap →
        snap.slaves_ready = false →
        is_copy_process_running (aliveFn 0) snap = true →
        (∀ k, 1 ≤ k → is_copy_process_running (aliveFn k) snap = false) →
        1 ≤ fuel →
        (restoreCmd (some "v1") aliveFn readyAt fuel st).1 =
          RestoreResult.restored true) := by
  have hrun :
      (restoreCmd (some "v1") (fun k _ => k == 0) (fun _ => false) 5 stV1).1 =
        RestoreResult.stillWaiting := by decide
  refine ⟨hrun, fun h => ?_⟩
  have hcontra := h (fun k _ => k == 0) (fun _ => false) 5 stV1 snapV1 rfl rfl
    (by decide)
    (by
      intro k hk
      have hk0 : k ≠ 0 := by omega
      simp [is_copy_process_running, snapV1, hk0])
    (by omega)
  rw [hrun] at hcontra
  exact RestoreResult.noConfusion hcontra

/-- C1 as amended: when the snapshot is ready, restore proceeds directly;
when it is not ready and the single initial liveness probe finds the worker
alive, the command blocks re-reading only the ready flag: it restores once a
re-read observes ready, and if no re-read ever observes ready it stays
blocked regardless of whether the worker is still alive at later instants;
only when the initial probe finds no live worker does it perform the inline
synchronous copy of all tracked tables before restoring. -/
theorem restore_readiness_protocol (n : String) (st : EngineState)
    (snap : Snapshot) (aliveFn : Nat → Nat → Bool) (readyAt : Nat → Bool)
    (fuel : Nat) (hn : n ≠ "") (hget : get_snapshot st n = some snap) :
    (snap.slaves_ready = true →
      restoreCmd (some n) aliveFn readyAt fuel st =
        (RestoreResult.restored false, app_restore st snap)) ∧
    (snap.slaves_ready = false →
      is_copy_process_running (aliveFn 0) snap = true →
      (∀ k, readyAt k = false) →
      restoreCmd (some n) aliveFn readyAt fuel st =
        (RestoreResult.stillWaiting, st)) ∧
    (snap.slaves_ready = false →
      is_copy_process_running (aliveFn 0) snap = true →
      readyAt 1 = true → 1 ≤ fuel →
      restoreCmd (some n) aliveFn readyAt fuel st =
        (RestoreResult.restored false, app_restore st snap)) ∧
    (snap.slaves_ready = false →
      is_copy_process_running (aliveFn 0) snap = false →
      restoreCmd (some n) aliveFn readyAt fuel st =
        (RestoreResult.restored true,
         app_restore (inline_slave_copy st snap) snap)) := by
  have hres : restoreCmd (some n) aliveFn readyAt fuel st =
      restoreFromSnapshot aliveFn readyAt fuel st snap := by
    simp [restoreCmd, hn, hget]
  refine ⟨?_, ?_, ?_, ?_⟩
  · intro hr
    rw [hres]
    simp [restoreFromSnapshot, hr]
  · intro hr ha hnever
    rw [hres]
    simp [restoreFromSnapshot, hr, ha,
      waitReady_eq_none readyAt hnever fuel 1]
  · intro hr ha h1 hf
    obtain ⟨f, rfl⟩ : ∃ f, fuel = f + 1 := ⟨fuel - 1, by omega⟩
    rw [hres]
    simp [restoreFromSnapshot, hr, ha,
      waitReady_succ_of_ready readyAt f 1 h1]
  · intro hr ha
    rw [hres]
    simp [restoreFromSnapshot, hr, ha]

/-- Witness for the amended C1: with a live worker and a ready flag that
never flips, the concrete restore is still blocked after three polls, and
with no live worker the concrete restore performs the inline copy. -/
theorem restore_readiness_protocol_witness :
    restoreCmd (some "v1") (fun _ _ => true) (fun _ => false) 3 stV1 =
      (RestoreResult.stillWaiting, stV1) ∧
    restoreCmd (some "v1") (fun _ _ => false) (fun _ => false) 3 stV1 =
      (RestoreResult.restored true,
       app_restore (inline_slave_copy stV1 snapV1) snapV1) :=
  ⟨(restore_readiness_protocol "v1" stV1 snapV1 (fun _ _ => true)
      (fun _ => false) 3 (by decide) rfl).2.1 rfl rfl (fun k => rfl),
   (restore_readiness_protocol "v1" stV1 snapV1 (fun _ _ => false)
      (fun _ => false) 3 (by decide) rfl).2.2.2 rfl rfl⟩

end Stellar
